import Mathlib

/-!
Verification of the pope-game physics/collision core.

The definitions below are a shallow embedding of the JavaScript source:
`scripts/core/collision-detection.js` (CollisionDetection), `physics.js`
(Physics), `player.js` (Player jump/coyote logic), `enemy-base.js`
(EnemyBase.takeDamage / die), `scripts/systems/collectibles-manager.js`
(EnemyManager.handleEnemyPlayerCollision / damagePlayer) and
`scripts/core/game-engine.js` (GameEngine.updatePlaying gravity line).
JavaScript numbers are modelled as rationals; booleans as `Bool`.
-/

namespace PopeGame

/-- An axis-aligned rectangle: `{x, y, width, height}` as used for both
entities and platforms in the source. -/
structure Rect where
  x : ℚ
  y : ℚ
  width : ℚ
  height : ℚ
deriving DecidableEq, Repr

/-- The collision-info object returned by `checkRectCollision` on overlap. -/
structure CollisionInfo where
  overlapX : ℚ
  overlapY : ℚ
  fromLeft : Bool
  fromTop : Bool
deriving DecidableEq, Repr

/-- Embedding of `CollisionDetection.checkRectCollision(rect1, rect2)`:
AABB test returning overlap depths and approach sides, or null. -/
def checkRectCollision (rect1 rect2 : Rect) : Option CollisionInfo :=
  if rect1.x < rect2.x + rect2.width ∧
     rect1.x + rect1.width > rect2.x ∧
     rect1.y < rect2.y + rect2.height ∧
     rect1.y + rect1.height > rect2.y then
    some { overlapX := min (rect1.x + rect1.width - rect2.x) (rect2.x + rect2.width - rect1.x),
           overlapY := min (rect1.y + rect1.height - rect2.y) (rect2.y + rect2.height - rect1.y),
           fromLeft := decide (rect1.x < rect2.x),
           fromTop := decide (rect1.y < rect2.y) }
  else
    none

/-- The kinematic state of an entity (player or enemy) that
`handlePlatformCollision` reads and writes. -/
structure Entity where
  x : ℚ
  y : ℚ
  width : ℚ
  height : ℚ
  speedX : ℚ
  speedY : ℚ
  isGrounded : Bool
deriving DecidableEq, Repr

/-- Constant `physics.gravity` from the `Physics` constructor. -/
def gravityConst : ℚ := 7/10

def terminalVelocity : ℚ := 15

def playerMaxSpeed : ℚ := 7

def playerAcceleration : ℚ := 4/5

def playerFriction : ℚ := 7/20

def playerJumpPower : ℚ := -15

def wallSlideSpeed : ℚ := 2

def wallFriction : ℚ := 17/20

/-- Embedding of `Physics.applyGravity(entity, multiplier)`. -/
def applyGravity (e : Entity) (multiplier : ℚ) : Entity :=
  let e := { e with speedY := e.speedY + gravityConst * multiplier }
  if e.speedY > terminalVelocity * multiplier then
    { e with speedY := terminalVelocity * multiplier }
  else e

/-- Embedding of `Physics.applyWallSlide(entity, touchingWall)`. -/
def applyWallSlide (e : Entity) (touchingWall : Bool) : Entity :=
  if touchingWall ∧ e.speedY > 0 then
    let e := { e with speedY := e.speedY * wallFriction }
    if e.speedY > wallSlideSpeed then { e with speedY := wallSlideSpeed } else e
  else e

/-- Embedding of `Physics.applyMovement(entity, inputDirection)`: acceleration on input,
friction decay with a 0.1 snap-to-zero epsilon otherwise, then clamping
to `±playerMaxSpeed`. -/
def applyMovement (e : Entity) (inputDirection : ℤ) : Entity :=
  let e :=
    if inputDirection ≠ 0 then
      { e with speedX := e.speedX + (inputDirection : ℚ) * playerAcceleration }
    else
      if |e.speedX| > 1/10 then
        { e with speedX := e.speedX * (1 - playerFriction) }
      else
        { e with speedX := 0 }
  { e with speedX := max (-playerMaxSpeed) (min playerMaxSpeed e.speedX) }

/-- Embedding of `Player.setGrounded(grounded)`: grounding also zeroes `speedY`. -/
def setGrounded (e : Entity) (grounded : Bool) : Entity :=
  if grounded then { e with isGrounded := true, speedY := 0 }
  else { e with isGrounded := false }

/-- A behavior record of the `platformTypes` table in `CollisionDetection`.
Absent JavaScript fields are modelled by the defaults (`false`, `none`). -/
structure PlatType where
  passThrough : Bool := false
  oneWay : Bool := false
  bouncy : Bool := false
  bouncePower : ℚ := 0
  dirX : Option ℚ := none
  dirY : ℚ := 0
  speed : ℚ := 0
deriving DecidableEq, Repr

/-- The `solid` behavior record. -/
def solidType : PlatType := {}

/-- The `oneway` behavior record: `{ passThrough: true, oneWay: true }`. -/
def onewayType : PlatType := { passThrough := true, oneWay := true }

/-- The `bouncy_platform` behavior record: `{ bouncy: true, bouncePower: 1.5 }`. -/
def bouncyPlatformType : PlatType := { bouncy := true, bouncePower := 3/2 }

/-- The `super_bouncy_platform` behavior record: `{ bouncy: true, bouncePower: 2.0 }`. -/
def superBouncyPlatformType : PlatType := { bouncy := true, bouncePower := 2 }

/-- The `platform_r_slow` behavior record: `{ speed: 1, dirX: 1, dirY: 0 }`. -/
def platformRSlowType : PlatType := { speed := 1, dirX := some 1, dirY := 0 }

/-- Side-effect callbacks fired by `handlePlatformCollision` via
`triggerCallback`. -/
inductive CollisionEvent where
  | bounce
  | hardLanding
  | softLanding
deriving DecidableEq, Repr

/-- Result of `handlePlatformCollision`: its boolean return value, the
mutated entity, and the callbacks it fired. -/
structure ResolveResult where
  handled : Bool
  entity : Entity
  events : List CollisionEvent
deriving DecidableEq, Repr

/-- Embedding of `CollisionDetection.handlePlatformCollision(player, platform, collision)`,
with the platform's behavior record already looked up (unknown types fall
back to `solidType` in the source). -/
def handlePlatformCollision (platType : PlatType) (e : Entity) (plat : Rect)
    (c : CollisionInfo) : ResolveResult :=
  if platType.oneWay ∧ e.speedY ≤ 0 then
    ⟨false, e, []⟩
  else if platType.bouncy ∧ c.fromTop ∧ e.speedY > 0 then
    let e := { e with speedY := -|e.speedY| * platType.bouncePower }
    let e := if e.speedY < -35 then { e with speedY := -35 } else e
    ⟨true, e, [.bounce]⟩
  else if c.overlapX < c.overlapY then
    let e :=
      if c.fromLeft then { e with x := plat.x - e.width }
      else { e with x := plat.x + plat.width }
    let e := { e with speedX := 0 }
    let e := if ¬ e.isGrounded then applyWallSlide e true else e
    ⟨true, e, []⟩
  else
    if c.fromTop then
      let e := setGrounded { e with y := plat.y - e.height } true
      let e :=
        match platType.dirX with
        | some dx => { e with x := e.x + dx * platType.speed }
        | none => e
      let ev := if |e.speedY| > 10 then CollisionEvent.hardLanding
                else CollisionEvent.softLanding
      ⟨true, e, [ev]⟩
    else
      ⟨true, { e with y := plat.y + plat.height, speedY := 0 }, []⟩

/-- The player state read and written by the jump/coyote fragment of
`Player.update` (fields from the `Player` constructor). -/
structure PlayerJump where
  speedY : ℚ
  isGrounded : Bool
  coyoteTime : ℕ
  hasReleasedJump : Bool
deriving DecidableEq, Repr

/-- Constant `this.coyoteTimeMax = 6` from the `Player` constructor. -/
def coyoteTimeMax : ℕ := 6

/-- Embedding of `Player.jump()`: `speedY = physics.playerJumpPower; isGrounded = false`. -/
def Player.jump (p : PlayerJump) : PlayerJump :=
  { p with speedY := playerJumpPower, isGrounded := false }

/-- The jump-handling fragment of `Player.update()`: if the jump key is
held and released-since-last-jump, jump when grounded or within the coyote
window (also clearing `hasReleasedJump`). -/
def jumpPhase (p : PlayerJump) (keysUp : Bool) : PlayerJump :=
  if keysUp ∧ p.hasReleasedJump ∧ (p.isGrounded ∨ p.coyoteTime < coyoteTimeMax) then
    { Player.jump p with hasReleasedJump := false }
  else p

/-- The coyote-counter fragment of `Player.update()`: increment
`coyoteTime` when ungrounded, reset it to 0 when grounded. -/
def coyoteUpdate (p : PlayerJump) : PlayerJump :=
  if ¬ p.isGrounded then { p with coyoteTime := p.coyoteTime + 1 }
  else { p with coyoteTime := 0 }

/-- The jump-then-coyote sequence of `Player.update()`, in source order. -/
def jumpCoyoteStep (p : PlayerJump) (keysUp : Bool) : PlayerJump :=
  coyoteUpdate (jumpPhase p keysUp)

/-- Damage-type strings of the source (`'projectile'`, `'stomp'`,
`'special'`, `'none'`), as an enumeration. -/
inductive DamageType where
  | projectile
  | stomp
  | special
  | noneType
deriving DecidableEq, Repr

/-- The `EnemyBase` state read and written by `takeDamage`/`die`. -/
structure Enemy where
  x : ℚ
  y : ℚ
  width : ℚ
  height : ℚ
  speedX : ℚ
  speedY : ℚ
  health : ℤ
  damage : ℚ
  invulnerable : Bool
  invulnerabilityTime : ℕ
  isDead : Bool
  deathTimer : ℕ
  flashTimer : ℕ
  vulnerabilities : List DamageType
deriving DecidableEq, Repr

/-- Constant `this.maxInvulnerabilityTime = 30` from the `EnemyBase` constructor. -/
def maxInvulnerabilityTime : ℕ := 30

/-- Constant `this.flashDuration = 10` from the `EnemyBase` constructor. -/
def flashDuration : ℕ := 10

/-- Embedding of `EnemyBase.die()`: marks dead, resets the death timer, zeroes speeds
(the loot roll `dropLoot()` touches no enemy state). -/
def EnemyBase.die (e : Enemy) : Enemy :=
  { e with isDead := true, deathTimer := 0, speedX := 0, speedY := 0 }

/-- Embedding of `EnemyBase.takeDamage(amount, type)`: returns whether damage was dealt
together with the updated enemy. -/
def takeDamage (e : Enemy) (amount : ℤ) (ty : DamageType) : Bool × Enemy :=
  if ¬ e.vulnerabilities.contains ty then
    (false, e)
  else if e.invulnerable ∨ e.isDead then
    (false, e)
  else
    let e := { e with health := e.health - amount, flashTimer := flashDuration }
    if e.health ≤ 0 then
      (true, EnemyBase.die e)
    else
      (true, { e with invulnerable := true,
                      invulnerabilityTime := maxInvulnerabilityTime })

/-- The player state read and written by
`EnemyManager.handleEnemyPlayerCollision` and `damagePlayer`. -/
structure PlayerHit where
  x : ℚ
  y : ℚ
  width : ℚ
  height : ℚ
  speedX : ℚ
  speedY : ℚ
  invulnerable : Bool
  invulnerabilityTime : ℕ
deriving DecidableEq, Repr

/-- The slice of `gameEngine.playerStats` that the enemy-player collision
path mutates. -/
structure PlayerStats where
  health : ℚ
  score : ℤ
deriving DecidableEq, Repr

/-- Combined result of `handleEnemyPlayerCollision`. -/
structure HitResult where
  enemy : Enemy
  player : PlayerHit
  stats : PlayerStats
deriving DecidableEq, Repr

/-- The stomp classification computed inside
`EnemyManager.handleEnemyPlayerCollision` (collectibles-manager revision):
`isFalling && isAboveEnemy && isAligned && canBeStomped`. -/
def stompCond (enemy : Enemy) (player : PlayerHit) : Bool :=
  let playerBottom := player.y + player.height
  let enemyTop := enemy.y
  let playerCenterX := player.x + player.width / 2
  let enemyCenterX := enemy.x + enemy.width / 2
  let isAboveEnemy := decide (playerBottom ≤ enemyTop + 30)
  let isAligned := decide (|playerCenterX - enemyCenterX| < enemy.width + 10)
  let isFalling := decide (player.speedY ≥ -2)
  let canBeStomped := enemy.vulnerabilities.contains DamageType.stomp
  isFalling && isAboveEnemy && isAligned && canBeStomped

/-- Embedding of `EnemyManager.damagePlayer(damage)`: subtracts health and grants the
player a 60-frame invulnerability. -/
def damagePlayer (player : PlayerHit) (stats : PlayerStats) (dmg : ℚ) :
    PlayerHit × PlayerStats :=
  ({ player with invulnerable := true, invulnerabilityTime := 60 },
   { stats with health := stats.health - dmg })

/-- Embedding of `EnemyManager.handleEnemyPlayerCollision(enemy, player, collision)`
(collectibles-manager revision): stomp branch or damage-plus-knockback
branch, with the collision info itself unused by the body. -/
def handleEnemyPlayerCollision (enemy : Enemy) (player : PlayerHit)
    (stats : PlayerStats) : HitResult :=
  let playerCenterX := player.x + player.width / 2
  let enemyCenterX := enemy.x + enemy.width / 2
  if stompCond enemy player then
    let enemy := (takeDamage enemy 1 DamageType.stomp).2
    let player := { player with speedY := -18 }
    let stats := { stats with score := stats.score + 100 }
    let player := { player with invulnerable := true, invulnerabilityTime := 10 }
    ⟨enemy, player, stats⟩
  else if ¬ player.invulnerable then
    let (player, stats) := damagePlayer player stats enemy.damage
    let knockbackDirection : ℚ := if playerCenterX < enemyCenterX then -1 else 1
    let player := { player with speedX := knockbackDirection * 7, speedY := -8 }
    ⟨enemy, player, stats⟩
  else
    ⟨enemy, player, stats⟩

/-- The level-gravity line of `GameEngine.updatePlaying()`:
`if (level.gravity !== 1.0) physics.gravity *= level.gravity`, as a map on
the shared `physics.gravity` value. -/
def updatePlayingGravity (levelGravity : ℚ) (grav : ℚ) : ℚ :=
  if levelGravity ≠ 1 then grav * levelGravity else grav

end PopeGame

namespace PopeGame

/-- C9: `checkRectCollision` treats boundary contact as no collision, and
any returned collision has strictly positive overlap depths on both axes. -/
theorem checkRectCollision_boundary_safe :
    (∀ a b : Rect,
      (a.x + a.width = b.x ∨ b.x + b.width = a.x ∨
       a.y + a.height = b.y ∨ b.y + b.height = a.y) →
      checkRectCollision a b = none) ∧
    (∀ (a b : Rect) (c : CollisionInfo),
      checkRectCollision a b = some c → 0 < c.overlapX ∧ 0 < c.overlapY) := by
  constructor
  · intro a b h
    unfold checkRectCollision
    split_ifs with hc
    · obtain ⟨h1, h2, h3, h4⟩ := hc
      rcases h with h | h | h | h <;> linarith
    · rfl
  · intro a b c h
    unfold checkRectCollision at h
    split_ifs at h with hc
    · obtain ⟨h1, h2, h3, h4⟩ := hc
      cases h
      constructor
      · exact lt_min (by linarith) (by linarith)
      · exact lt_min (by linarith) (by linarith)

theorem checkRectCollision_boundary_safe_witness :
    checkRectCollision ⟨0, 0, 1, 1⟩ ⟨1, 0, 1, 1⟩ = none ∧
    (0 < (1 : ℚ) ∧ 0 < (1 : ℚ)) := by
  refine ⟨checkRectCollision_boundary_safe.1 _ _ (Or.inl (by norm_num)), ?_⟩
  have heq : checkRectCollision ⟨0, 0, 2, 2⟩ ⟨1, 1, 2, 2⟩ =
      some ⟨1, 1, true, true⟩ := by
    norm_num [checkRectCollision]
  have := checkRectCollision_boundary_safe.2 ⟨0, 0, 2, 2⟩ ⟨1, 1, 2, 2⟩
      ⟨1, 1, true, true⟩ heq
  exact this

/-- C1: `checkRectCollision` returns non-null exactly on strict AABB
overlap, with the stated overlap depths and approach sides; the solid
resolution in `handlePlatformCollision` is horizontal exactly when
`overlapX < overlapY` and vertical otherwise. -/
theorem checkRectCollision_spec_and_mtv :
    (∀ a b : Rect, (checkRectCollision a b).isSome = true ↔
        (a.x < b.x + b.width ∧ a.x + a.width > b.x ∧
         a.y < b.y + b.height ∧ a.y + a.height > b.y)) ∧
    (∀ (a b : Rect) (c : CollisionInfo), checkRectCollision a b = some c →
        c.overlapX = min (a.x + a.width - b.x) (b.x + b.width - a.x) ∧
        c.overlapY = min (a.y + a.height - b.y) (b.y + b.height - a.y) ∧
        (c.fromLeft = true ↔ a.x < b.x) ∧
        (c.fromTop = true ↔ a.y < b.y)) ∧
    (∀ (e : Entity) (plat : Rect) (c : CollisionInfo),
        c.overlapX < c.overlapY →
        (handlePlatformCollision solidType e plat c).handled = true ∧
        (c.fromLeft = true →
          (handlePlatformCollision solidType e plat c).entity.x = plat.x - e.width) ∧
        (c.fromLeft = false →
          (handlePlatformCollision solidType e plat c).entity.x = plat.x + plat.width) ∧
        (handlePlatformCollision solidType e plat c).entity.speedX = 0 ∧
        (handlePlatformCollision solidType e plat c).entity.y = e.y) ∧
    (∀ (e : Entity) (plat : Rect) (c : CollisionInfo),
        ¬ c.overlapX < c.overlapY →
        (handlePlatformCollision solidType e plat c).handled = true ∧
        (handlePlatformCollision solidType e plat c).entity.x = e.x ∧
        (handlePlatformCollision solidType e plat c).entity.speedX = e.speedX ∧
        (c.fromTop = true →
          (handlePlatformCollision solidType e plat c).entity.y = plat.y - e.height ∧
          (handlePlatformCollision solidType e plat c).entity.isGrounded = true ∧
          (handlePlatformCollision solidType e plat c).entity.speedY = 0) ∧
        (c.fromTop = false →
          (handlePlatformCollision solidType e plat c).entity.y = plat.y + plat.height ∧
          (handlePlatformCollision solidType e plat c).entity.speedY = 0)) := by
  refine ⟨?_, ?_, ?_, ?_⟩
  · intro a b
    unfold checkRectCollision
    split_ifs with hc
    · simpa using hc
    · simpa using hc
  · intro a b c h
    unfold checkRectCollision at h
    split_ifs at h with hc
    · cases h
      refine ⟨rfl, rfl, ?_, ?_⟩ <;> simp
  · intro e plat c hlt
    unfold handlePlatformCollision
    simp only [solidType]
    split_ifs with h1 h2 h3 h4 <;>
      simp_all [applyWallSlide, wallFriction, wallSlideSpeed] <;>
      split_ifs <;> simp
  · intro e plat c hlt
    unfold handlePlatformCollision
    simp only [solidType]
    split_ifs with h1 h2 h3 h4 <;>
      simp_all [setGrounded]

theorem checkRectCollision_spec_and_mtv_witness :
    (handlePlatformCollision solidType ⟨0, 0, 10, 20, 3, 5, false⟩
      ⟨0, 0, 50, 10⟩ ⟨1, 2, true, true⟩).entity.speedX = 0 ∧
    (handlePlatformCollision solidType ⟨0, 0, 10, 20, 3, 5, false⟩
      ⟨0, 0, 50, 10⟩ ⟨2, 1, true, true⟩).entity.isGrounded = true ∧
    (checkRectCollision (⟨0, 0, 2, 2⟩ : Rect) ⟨1, 1, 2, 2⟩).isSome = true := by
  refine ⟨(checkRectCollision_spec_and_mtv.2.2.1 _ _ _ (by norm_num)).2.2.2.1,
          ((checkRectCollision_spec_and_mtv.2.2.2 _ _ _ (by norm_num)).2.2.2.1 rfl).2.1,
          (checkRectCollision_spec_and_mtv.1 _ _).mpr (by norm_num)⟩

/-- C3: a one-way platform never blocks an entity with `speedY <= 0`
(no-op, returns false), and blocks and grounds an entity landing from
above while falling. -/
theorem handlePlatformCollision_oneWay :
    ∀ (platType : PlatType) (e : Entity) (plat : Rect) (c : CollisionInfo),
      platType.oneWay = true →
      (e.speedY ≤ 0 → handlePlatformCollision platType e plat c = ⟨false, e, []⟩) ∧
      (platType.bouncy = false → 0 < e.speedY → c.fromTop = true →
        ¬ c.overlapX < c.overlapY →
        (handlePlatformCollision platType e plat c).handled = true ∧
        (handlePlatformCollision platType e plat c).entity.y = plat.y - e.height ∧
        (handlePlatformCollision platType e plat c).entity.isGrounded = true ∧
        (handlePlatformCollision platType e plat c).entity.speedY = 0) := by
  intro platType e plat c hone
  constructor
  · intro hle
    unfold handlePlatformCollision
    simp [hone, hle]
  · intro hb hpos htop hver
    unfold handlePlatformCollision
    rw [if_neg (by simp [hone]; linarith),
        if_neg (by rw [hb]; simp), if_neg hver, if_pos htop]
    cases hdx : platType.dirX <;> simp [hdx, setGrounded]

theorem handlePlatformCollision_oneWay_witness :
    handlePlatformCollision onewayType ⟨0, 0, 10, 20, 0, -3, false⟩
      ⟨0, 30, 50, 10⟩ ⟨2, 1, true, true⟩ =
      ⟨false, ⟨0, 0, 10, 20, 0, -3, false⟩, []⟩ ∧
    (handlePlatformCollision onewayType ⟨0, 15, 10, 20, 0, 5, false⟩
      ⟨0, 30, 50, 10⟩ ⟨2, 1, true, true⟩).entity.isGrounded = true := by
  refine ⟨(handlePlatformCollision_oneWay onewayType _ _ _ rfl).1 (by norm_num),
          ((handlePlatformCollision_oneWay onewayType _ _ _ rfl).2 rfl
            (by norm_num) rfl (by norm_num)).2.2.1⟩

/-- The source's post-assignment bounce clamp equals a `max`. -/
theorem ite_bounce_clamp (s : ℚ) : (if s < -35 then (-35 : ℚ) else s) = max (-35) s := by
  split_ifs with h
  · exact (max_eq_left h.le).symm
  · exact (max_eq_right (not_lt.mp h)).symm

/-- C4: a bouncy platform bounces exactly on a falling top-approach, to
`-|speedY| * bouncePower` clamped at `-35`; a `speedY = 10` impact on
`bouncePower = 1.5` leaves exactly `-15`, and no bounce result is ever
below `-35`. -/
theorem handlePlatformCollision_bouncy :
    (∀ (platType : PlatType) (e : Entity) (plat : Rect) (c : CollisionInfo),
      platType.bouncy = true →
      (CollisionEvent.bounce ∈ (handlePlatformCollision platType e plat c).events ↔
        (c.fromTop = true ∧ 0 < e.speedY)) ∧
      (c.fromTop = true → 0 < e.speedY →
        (handlePlatformCollision platType e plat c).entity.speedY =
          max (-35) (-|e.speedY| * platType.bouncePower) ∧
        -35 ≤ (handlePlatformCollision platType e plat c).entity.speedY)) ∧
    (∀ (e : Entity) (plat : Rect) (c : CollisionInfo),
      c.fromTop = true → e.speedY = 10 →
      (handlePlatformCollision bouncyPlatformType e plat c).entity.speedY = -15) := by
  constructor
  · intro platType e plat c hb
    constructor
    · by_cases htp : c.fromTop = true ∧ 0 < e.speedY
      · unfold handlePlatformCollision
        rw [if_neg (fun h => absurd htp.2 (by linarith [h.2])),
            if_pos ⟨by rw [hb], htp.1, htp.2⟩]
        simpa using htp
      · refine iff_of_false ?_ htp
        unfold handlePlatformCollision
        rw [if_neg (show ¬ (platType.bouncy = true ∧ c.fromTop = true ∧ 0 < e.speedY) from
              fun h => htp ⟨h.2.1, h.2.2⟩)]
        by_cases h1 : platType.oneWay = true ∧ e.speedY ≤ 0
        · rw [if_pos h1]
          simp
        · rw [if_neg h1]
          by_cases h3 : c.overlapX < c.overlapY
          · rw [if_pos h3]
            simp
          · rw [if_neg h3]
            by_cases h4 : c.fromTop = true
            · rw [if_pos h4]
              cases platType.dirX <;> simp [setGrounded] <;> norm_num <;> decide
            · rw [if_neg h4]
              simp
    · intro htop hpos
      unfold handlePlatformCollision
      rw [if_neg (fun h => absurd hpos (by linarith [h.2])),
          if_pos ⟨by rw [hb], htop, hpos⟩]
      constructor
      · dsimp only
        split_ifs with hcl
        · simp [max_eq_left hcl.le]
          linarith
        · simp [max_eq_right (not_lt.mp hcl)]
          linarith [not_lt.mp hcl]
      · dsimp only
        split_ifs with hcl
        · simp
        · simpa using not_lt.mp hcl
  · intro e plat c htop hsy
    unfold handlePlatformCollision
    rw [if_neg (fun h => by simp [onewayType, bouncyPlatformType] at h),
        if_pos ⟨rfl, htop, by rw [hsy]; norm_num⟩]
    rw [hsy]
    norm_num [bouncyPlatformType]

theorem handlePlatformCollision_bouncy_witness :
    -35 ≤ (handlePlatformCollision superBouncyPlatformType
      ⟨0, 0, 10, 20, 0, 30, false⟩ ⟨0, 30, 50, 10⟩ ⟨2, 1, true, true⟩).entity.speedY ∧
    (handlePlatformCollision bouncyPlatformType
      ⟨0, 0, 10, 20, 0, 10, false⟩ ⟨0, 30, 50, 10⟩ ⟨2, 1, true, true⟩).entity.speedY = -15 := by
  refine ⟨((handlePlatformCollision_bouncy.1 superBouncyPlatformType _ _ _ rfl).2
            rfl (by norm_num)).2,
          handlePlatformCollision_bouncy.2 _ _ _ rfl rfl⟩

/-- C5: with the jump key pressed and previously released, a jump executes
exactly when grounded or inside the 6-frame coyote window (succeeding at
`coyoteTime = 5`, failing at `coyoteTime = 6`), setting `speedY` to the
fixed negative `playerJumpPower` and ungrounding; the coyote counter
increments on every ungrounded update and resets on every grounded one. -/
theorem player_jump_coyote :
    (∀ p : PlayerJump, p.hasReleasedJump = true →
      (p.isGrounded = true ∨ p.coyoteTime < coyoteTimeMax) →
      jumpCoyoteStep p true =
        { speedY := playerJumpPower, isGrounded := false,
          coyoteTime := p.coyoteTime + 1, hasReleasedJump := false }) ∧
    (∀ p : PlayerJump, p.hasReleasedJump = true → p.isGrounded = false →
      coyoteTimeMax ≤ p.coyoteTime →
      jumpCoyoteStep p true = { p with coyoteTime := p.coyoteTime + 1 }) ∧
    (∀ p : PlayerJump, p.hasReleasedJump = true → p.isGrounded = false →
      p.coyoteTime = 5 → (jumpCoyoteStep p true).speedY = playerJumpPower) ∧
    (∀ p : PlayerJump, p.hasReleasedJump = true → p.isGrounded = false →
      p.coyoteTime = 6 → (jumpCoyoteStep p true).speedY = p.speedY) ∧
    (∀ (p : PlayerJump) (keysUp : Bool),
      (jumpCoyoteStep p keysUp).coyoteTime =
        if (jumpCoyoteStep p keysUp).isGrounded then 0 else p.coyoteTime + 1) ∧
    playerJumpPower < 0 := by
  have hjp : ∀ (p : PlayerJump) (k : Bool), (jumpPhase p k).coyoteTime = p.coyoteTime := by
    intro p k
    unfold jumpPhase
    split_ifs <;> simp [Player.jump]
  have hcu : ∀ p : PlayerJump,
      (coyoteUpdate p).isGrounded = p.isGrounded ∧
      (coyoteUpdate p).coyoteTime =
        (if p.isGrounded then 0 else p.coyoteTime + 1) := by
    intro p
    cases hg : p.isGrounded <;> simp [coyoteUpdate, hg]
  refine ⟨?_, ?_, ?_, ?_, ?_, by norm_num [playerJumpPower]⟩
  · intro p hrel h
    simp [jumpCoyoteStep, jumpPhase, coyoteUpdate, Player.jump, hrel, h]
  · intro p hrel hng hcoy
    have hnlt : ¬ p.coyoteTime < coyoteTimeMax := by omega
    simp [jumpCoyoteStep, jumpPhase, coyoteUpdate, hrel, hng, hnlt]
  · intro p hrel hng hcoy
    have hlt : p.coyoteTime < coyoteTimeMax := by
      unfold coyoteTimeMax
      omega
    simp [jumpCoyoteStep, jumpPhase, coyoteUpdate, Player.jump, hrel, hlt]
  · intro p hrel hng hcoy
    have hnlt : ¬ p.coyoteTime < coyoteTimeMax := by
      rw [hcoy]
      simp [coyoteTimeMax]
    simp [jumpCoyoteStep, jumpPhase, coyoteUpdate, hrel, hng, hnlt]
  · intro p keysUp
    unfold jumpCoyoteStep
    rw [(hcu (jumpPhase p keysUp)).2, hjp, (hcu (jumpPhase p keysUp)).1]

theorem player_jump_coyote_witness :
    jumpCoyoteStep ⟨0, false, 5, true⟩ true =
      { speedY := playerJumpPower, isGrounded := false,
        coyoteTime := 6, hasReleasedJump := false } ∧
    (jumpCoyoteStep ⟨3, false, 6, true⟩ true).speedY = 3 := by
  exact ⟨player_jump_coyote.1 ⟨0, false, 5, true⟩ rfl (Or.inr (by norm_num [coyoteTimeMax])),
         player_jump_coyote.2.2.2.1 ⟨3, false, 6, true⟩ rfl rfl rfl⟩

/-- C7: while a level's gravity multiplier is not 1, every PLAYING frame
multiplies the shared `physics.gravity` by it, so after `n` frames the
shared constant equals its initial value times the multiplier to the
`n`-th power. -/
theorem updatePlayingGravity_compounds (g : ℚ) (hg : g ≠ 1) (grav0 : ℚ) (n : ℕ) :
    (updatePlayingGravity g)^[n] grav0 = grav0 * g ^ n := by
  induction n with
  | zero => simp
  | succ n ih =>
      rw [Function.iterate_succ_apply', ih]
      unfold updatePlayingGravity
      rw [if_pos hg, pow_succ, mul_assoc]

theorem updatePlayingGravity_compounds_witness :
    (updatePlayingGravity 2)^[3] (7/10) = 7/10 * 2 ^ 3 := by
  exact updatePlayingGravity_compounds 2 (by norm_num) (7/10) 3

/-- Shared fact: a successful `takeDamage` decrements `health` by `amount`
(whether or not the hit is lethal). -/
theorem takeDamage_success_health (e : Enemy) (amount : ℤ) (ty : DamageType)
    (hv : e.vulnerabilities.contains ty = true) (hinv : e.invulnerable = false)
    (hdead : e.isDead = false) :
    (takeDamage e amount ty).2.health = e.health - amount := by
  unfold takeDamage
  rw [if_neg (not_not_intro hv), if_neg (by simp [hinv, hdead])]
  dsimp only
  split_ifs <;> simp [EnemyBase.die]

/-- C8 counterexample: a lethal hit (1-health enemy, stomp damage 1)
returns true and kills, but starts no invulnerability window, contrary to
the claim that a successful `takeDamage` always starts one. -/
theorem takeDamage_counterexample :
    (takeDamage ⟨0, 0, 32, 32, 0, 0, 1, 10, false, 0, false, 0, 0,
        [DamageType.projectile, DamageType.stomp]⟩ 1 DamageType.stomp).1 = true ∧
    (takeDamage ⟨0, 0, 32, 32, 0, 0, 1, 10, false, 0, false, 0, 0,
        [DamageType.projectile, DamageType.stomp]⟩ 1 DamageType.stomp).2.invulnerable = false ∧
    (takeDamage ⟨0, 0, 32, 32, 0, 0, 1, 10, false, 0, false, 0, 0,
        [DamageType.projectile, DamageType.stomp]⟩ 1 DamageType.stomp).2.isDead = true := by
  refine ⟨?_, ?_, ?_⟩ <;> rfl

/-- C8 (amended): `takeDamage` is a no-op returning false on a
non-vulnerable type or an invulnerable or dead enemy; otherwise it returns
true and decrements health, and either triggers death at health ≤ 0
(without starting an invulnerability window) or starts the brief
invulnerability window when health stays positive. -/
theorem takeDamage_spec :
    ∀ (e : Enemy) (amount : ℤ) (ty : DamageType),
      ((e.vulnerabilities.contains ty = false ∨ e.invulnerable = true ∨ e.isDead = true) →
        takeDamage e amount ty = (false, e)) ∧
      (e.vulnerabilities.contains ty = true → e.invulnerable = false → e.isDead = false →
        (takeDamage e amount ty).1 = true ∧
        (takeDamage e amount ty).2.health = e.health - amount ∧
        (e.health - amount ≤ 0 →
          (takeDamage e amount ty).2.isDead = true ∧
          (takeDamage e amount ty).2.speedX = 0 ∧
          (takeDamage e amount ty).2.speedY = 0 ∧
          (takeDamage e amount ty).2.invulnerable = false) ∧
        (0 < e.health - amount →
          (takeDamage e amount ty).2.isDead = false ∧
          (takeDamage e amount ty).2.invulnerable = true ∧
          (takeDamage e amount ty).2.invulnerabilityTime = maxInvulnerabilityTime)) := by
  intro e amount ty
  constructor
  · intro h
    unfold takeDamage
    rcases h with h | h | h
    · rw [if_pos (by rw [h]; simp)]
    · by_cases hc : e.vulnerabilities.contains ty = true
      · rw [if_neg (not_not_intro hc), if_pos (Or.inl h)]
      · rw [if_pos hc]
    · by_cases hc : e.vulnerabilities.contains ty = true
      · rw [if_neg (not_not_intro hc), if_pos (Or.inr h)]
      · rw [if_pos hc]
  · intro hv hinv hdead
    unfold takeDamage
    rw [if_neg (not_not_intro hv), if_neg (by simp [hinv, hdead])]
    dsimp only
    refine ⟨?_, ?_, ?_, ?_⟩
    · split_ifs <;> rfl
    · split_ifs <;> simp [EnemyBase.die]
    · intro hle2
      rw [if_pos (by simpa using hle2)]
      simp [EnemyBase.die, hinv]
    · intro hpos
      rw [if_neg (by simp; linarith)]
      simp [hdead]

theorem takeDamage_spec_witness :
    takeDamage ⟨0, 0, 32, 32, 0, 0, 3, 10, true, 12, false, 0, 0,
        [DamageType.stomp]⟩ 1 DamageType.stomp =
      (false, ⟨0, 0, 32, 32, 0, 0, 3, 10, true, 12, false, 0, 0,
        [DamageType.stomp]⟩) ∧
    (takeDamage ⟨0, 0, 32, 32, 0, 0, 3, 10, false, 0, false, 0, 0,
        [DamageType.stomp]⟩ 1 DamageType.stomp).2.invulnerabilityTime =
      maxInvulnerabilityTime := by
  refine ⟨(takeDamage_spec ⟨0, 0, 32, 32, 0, 0, 3, 10, true, 12, false, 0, 0,
            [DamageType.stomp]⟩ 1 DamageType.stomp).1 (Or.inr (Or.inl rfl)),
          (((takeDamage_spec ⟨0, 0, 32, 32, 0, 0, 3, 10, false, 0, false, 0, 0,
            [DamageType.stomp]⟩ 1 DamageType.stomp).2 (by decide) rfl rfl).2.2.2
            (by norm_num)).2.2⟩

/-- C2: on an overlapping player-enemy pair with no disqualifying
invulnerability, exactly one of the stomp effect and the damage effect
fires — the stomp branch (enemy takes 1 stomp damage, player pops to
`speedY = -18`, +100 score, 10-frame invulnerability) exactly when the four
stomp conditions hold, otherwise the damage branch (player loses
`enemy.damage` health, knockback away from the enemy with an upward pop,
60-frame invulnerability). -/
theorem handleEnemyPlayerCollision_exclusive :
    ∀ (enemy : Enemy) (player : PlayerHit) (stats : PlayerStats),
      player.invulnerable = false → enemy.invulnerable = false → enemy.isDead = false →
      (stompCond enemy player = true ↔
        (player.speedY ≥ -2 ∧
         player.y + player.height ≤ enemy.y + 30 ∧
         |player.x + player.width / 2 - (enemy.x + enemy.width / 2)| < enemy.width + 10 ∧
         enemy.vulnerabilities.contains DamageType.stomp = true)) ∧
      (stompCond enemy player = true →
        (handleEnemyPlayerCollision enemy player stats).enemy =
          (takeDamage enemy 1 DamageType.stomp).2 ∧
        (handleEnemyPlayerCollision enemy player stats).enemy.health = enemy.health - 1 ∧
        (handleEnemyPlayerCollision enemy player stats).player.speedY = -18 ∧
        (handleEnemyPlayerCollision enemy player stats).stats.score = stats.score + 100 ∧
        (handleEnemyPlayerCollision enemy player stats).player.invulnerable = true ∧
        (handleEnemyPlayerCollision enemy player stats).player.invulnerabilityTime = 10 ∧
        (handleEnemyPlayerCollision enemy player stats).stats.health = stats.health) ∧
      (stompCond enemy player = false →
        (handleEnemyPlayerCollision enemy player stats).stats.health =
          stats.health - enemy.damage ∧
        (handleEnemyPlayerCollision enemy player stats).player.invulnerable = true ∧
        (handleEnemyPlayerCollision enemy player stats).player.invulnerabilityTime = 60 ∧
        (handleEnemyPlayerCollision enemy player stats).player.speedX =
          (if player.x + player.width / 2 < enemy.x + enemy.width / 2 then -7 else 7) ∧
        (handleEnemyPlayerCollision enemy player stats).player.speedY = -8 ∧
        (handleEnemyPlayerCollision enemy player stats).enemy = enemy ∧
        (handleEnemyPlayerCollision enemy player stats).stats.score = stats.score) ∧
      ((handleEnemyPlayerCollision enemy player stats).player.invulnerabilityTime =
        if stompCond enemy player then 10 else 60) := by
  intro enemy player stats hpinv heinv hedead
  have hsc : ∀ h : stompCond enemy player = true,
      enemy.vulnerabilities.contains DamageType.stomp = true := by
    intro h
    unfold stompCond at h
    simp only [Bool.and_eq_true, decide_eq_true_eq] at h
    exact h.2
  refine ⟨?_, ?_, ?_, ?_⟩
  · unfold stompCond
    simp [and_assoc]
  · intro hst
    have hv := hsc hst
    have htd : (takeDamage enemy 1 DamageType.stomp).2.health = enemy.health - 1 :=
      takeDamage_success_health enemy 1 DamageType.stomp hv heinv hedead
    unfold handleEnemyPlayerCollision
    rw [if_pos hst]
    exact ⟨rfl, htd, rfl, rfl, rfl, rfl, rfl⟩
  · intro hst
    have h1 : ¬ (stompCond enemy player = true) := by simp [hst]
    have h2 : ¬ (player.invulnerable = true) := by simp [hpinv]
    unfold handleEnemyPlayerCollision
    rw [if_neg h1, if_pos h2]
    simp [damagePlayer]
  · by_cases hst : stompCond enemy player = true
    · unfold handleEnemyPlayerCollision
      rw [if_pos hst, if_pos hst]
    · have h2 : ¬ (player.invulnerable = true) := by simp [hpinv]
      unfold handleEnemyPlayerCollision
      rw [if_neg hst, if_neg hst, if_pos h2]
      simp [damagePlayer]

theorem handleEnemyPlayerCollision_exclusive_witness :
    (handleEnemyPlayerCollision
      ⟨100, 130, 32, 32, 0, 0, 2, 10, false, 0, false, 0, 0, [DamageType.stomp]⟩
      ⟨100, 60, 30, 40, 0, 5, false, 0⟩ ⟨100, 0⟩).player.speedY = -18 ∧
    (handleEnemyPlayerCollision
      ⟨100, 130, 32, 32, 0, 0, 2, 10, false, 0, false, 0, 0, []⟩
      ⟨100, 130, 30, 40, 0, 5, false, 0⟩ ⟨100, 0⟩).player.invulnerabilityTime = 60 := by
  refine ⟨((handleEnemyPlayerCollision_exclusive _ _ _ rfl rfl rfl).2.1 ?_).2.2.1,
          ((handleEnemyPlayerCollision_exclusive _ _ _ rfl rfl rfl).2.2.1 ?_).2.2.1⟩
  · unfold stompCond
    norm_num
  · unfold stompCond
    norm_num

/-- C10: the stomp branch never reads the player's invulnerability state —
two calls on players differing only in `invulnerable`/`invulnerabilityTime`
produce identical results when the stomp conditions hold, and the stomp
effects (bounce, score, 10-frame window, 1 stomp damage on a live,
non-invulnerable enemy) apply even to a currently invulnerable player. -/
theorem stomp_ignores_player_invulnerability :
    ∀ (enemy : Enemy) (p1 p2 : PlayerHit) (stats : PlayerStats),
      p1.x = p2.x → p1.y = p2.y → p1.width = p2.width → p1.height = p2.height →
      p1.speedX = p2.speedX → p1.speedY = p2.speedY →
      stompCond enemy p1 = true →
      handleEnemyPlayerCollision enemy p1 stats =
        handleEnemyPlayerCollision enemy p2 stats ∧
      (handleEnemyPlayerCollision enemy p1 stats).player.speedY = -18 ∧
      (handleEnemyPlayerCollision enemy p1 stats).player.invulnerabilityTime = 10 ∧
      (handleEnemyPlayerCollision enemy p1 stats).stats.score = stats.score + 100 ∧
      (enemy.invulnerable = false → enemy.isDead = false →
        (handleEnemyPlayerCollision enemy p1 stats).enemy.health = enemy.health - 1) := by
  intro enemy p1 p2 stats hx hy hw hh hsx hsy hst
  have hst2 : stompCond enemy p2 = true := by
    unfold stompCond at hst ⊢
    rw [← hx, ← hy, ← hw, ← hh, ← hsy]
    exact hst
  have hv : enemy.vulnerabilities.contains DamageType.stomp = true := by
    unfold stompCond at hst
    simp only [Bool.and_eq_true, decide_eq_true_eq] at hst
    exact hst.2
  refine ⟨?_, ?_, ?_, ?_, ?_⟩
  · unfold handleEnemyPlayerCollision
    rw [if_pos hst, if_pos hst2]
    simp [HitResult.mk.injEq, PlayerHit.mk.injEq, hx, hy, hw, hh, hsx]
  · unfold handleEnemyPlayerCollision
    rw [if_pos hst]
  · unfold handleEnemyPlayerCollision
    rw [if_pos hst]
  · unfold handleEnemyPlayerCollision
    rw [if_pos hst]
  · intro heinv hedead
    unfold handleEnemyPlayerCollision
    rw [if_pos hst]
    exact takeDamage_success_health enemy 1 DamageType.stomp hv heinv hedead

theorem stomp_ignores_player_invulnerability_witness :
    handleEnemyPlayerCollision
        ⟨100, 130, 32, 32, 0, 0, 2, 10, false, 0, false, 0, 0, [DamageType.stomp]⟩
        ⟨100, 60, 30, 40, 0, 5, true, 42⟩ ⟨100, 0⟩ =
      handleEnemyPlayerCollision
        ⟨100, 130, 32, 32, 0, 0, 2, 10, false, 0, false, 0, 0, [DamageType.stomp]⟩
        ⟨100, 60, 30, 40, 0, 5, false, 0⟩ ⟨100, 0⟩ ∧
    (handleEnemyPlayerCollision
        ⟨100, 130, 32, 32, 0, 0, 2, 10, false, 0, false, 0, 0, [DamageType.stomp]⟩
        ⟨100, 60, 30, 40, 0, 5, true, 42⟩ ⟨100, 0⟩).player.speedY = -18 := by
  have h := stomp_ignores_player_invulnerability
    ⟨100, 130, 32, 32, 0, 0, 2, 10, false, 0, false, 0, 0, [DamageType.stomp]⟩
    ⟨100, 60, 30, 40, 0, 5, true, 42⟩ ⟨100, 60, 30, 40, 0, 5, false, 0⟩ ⟨100, 0⟩
    rfl rfl rfl rfl rfl rfl (by unfold stompCond; norm_num)
  exact ⟨h.1, h.2.1⟩

/-- Evaluation of the `speedX` assignment made by `applyMovement`. -/
theorem applyMovement_speedX (e : Entity) (d : ℤ) :
    (applyMovement e d).speedX =
      max (-playerMaxSpeed) (min playerMaxSpeed
        (if d ≠ 0 then e.speedX + (d : ℚ) * playerAcceleration
         else if 1/10 < |e.speedX| then e.speedX * (1 - playerFriction) else 0)) := by
  unfold applyMovement
  split_ifs <;> rfl

/-- The speed clamp is the identity inside `±playerMaxSpeed`. -/
theorem clamp_id (s : ℚ) (h : |s| ≤ playerMaxSpeed) :
    max (-playerMaxSpeed) (min playerMaxSpeed s) = s := by
  rw [abs_le] at h
  rw [min_eq_right h.2, max_eq_right h.1]

/-- The speed clamp always lands inside `±playerMaxSpeed`. -/
theorem abs_clamp_le (s : ℚ) :
    |max (-playerMaxSpeed) (min playerMaxSpeed s)| ≤ playerMaxSpeed := by
  rw [abs_le]
  constructor
  · exact le_max_left _ _
  · exact max_le (by norm_num [playerMaxSpeed]) (min_le_left _ _)

/-- One friction step contracts `|speedX|` by the factor `1 - friction`. -/
theorem applyMovement_contract (e : Entity) (c : ℚ) (hc : |e.speedX| ≤ c)
    (hc7 : c ≤ playerMaxSpeed) :
    |(applyMovement e 0).speedX| ≤ 13/20 * c := by
  have h0 : (0 : ℚ) ≤ c := le_trans (abs_nonneg _) hc
  rw [applyMovement_speedX]
  norm_num
  split_ifs with h
  · have habs : |e.speedX * (1 - playerFriction)| = 13/20 * |e.speedX| := by
      rw [abs_mul]
      have h13 : |1 - playerFriction| = 13/20 := by norm_num [playerFriction]
      rw [h13]
      ring
    have h1 : |e.speedX * (1 - playerFriction)| ≤ 13/20 * c := by
      rw [habs]
      nlinarith
    have h2 : |e.speedX * (1 - playerFriction)| ≤ playerMaxSpeed := by
      refine le_trans h1 ?_
      have hc7q : c ≤ 7 := by
        norm_num [playerMaxSpeed] at hc7
        exact hc7
      norm_num [playerMaxSpeed]
      linarith
    rw [clamp_id _ h2]
    exact h1
  · rw [clamp_id 0 (by norm_num [playerMaxSpeed])]
    simpa using by positivity

/-- Below the 0.1 epsilon, a friction step snaps `speedX` to exactly 0. -/
theorem applyMovement_snap (e : Entity) (h : |e.speedX| ≤ 1/10) :
    (applyMovement e 0).speedX = 0 := by
  rw [applyMovement_speedX]
  norm_num
  rw [if_neg (not_lt.mpr h), clamp_id 0 (by norm_num [playerMaxSpeed])]

/-- Geometric decay of `|speedX|` under iterated friction steps. -/
theorem applyMovement_iter_bound (n : ℕ) (e : Entity)
    (h : |e.speedX| ≤ playerMaxSpeed) :
    |((fun x => applyMovement x 0)^[n] e).speedX| ≤
      playerMaxSpeed * (13/20) ^ n := by
  induction n with
  | zero => simpa using h
  | succ n ih =>
      rw [Function.iterate_succ_apply']
      have hle : playerMaxSpeed * (13/20) ^ n ≤ playerMaxSpeed := by
        have hp : ((13 : ℚ)/20) ^ n ≤ 1 := pow_le_one₀ (by norm_num) (by norm_num)
        have hp0 : (0 : ℚ) ≤ (13/20 : ℚ) ^ n := by positivity
        norm_num [playerMaxSpeed]
        nlinarith
      have hstep := applyMovement_contract _ _ ih hle
      calc |(applyMovement ((fun x => applyMovement x 0)^[n] e) 0).speedX|
          ≤ 13/20 * (playerMaxSpeed * (13/20) ^ n) := hstep
        _ = playerMaxSpeed * (13/20) ^ (n + 1) := by ring

/-- C6 counterexample: at `speedX = 20` the friction step does not return
`speedX * (1 - friction) = 13`; the clamp to `maxSpeed` returns 7. -/
theorem applyMovement_friction_counterexample :
    (1/10 : ℚ) < |(⟨0, 0, 1, 1, 20, 0, false⟩ : Entity).speedX| ∧
    (applyMovement ⟨0, 0, 1, 1, 20, 0, false⟩ 0).speedX = 7 ∧
    (⟨0, 0, 1, 1, 20, 0, false⟩ : Entity).speedX * (1 - playerFriction) = 13 ∧
    (7 : ℚ) ≠ 13 := by
  norm_num [applyMovement, playerFriction, playerMaxSpeed]

/-- C6 (amended): with no input, `applyMovement` multiplies `speedX` by
`1 - friction` and clamps to `±maxSpeed` while `|speedX| > 0.1`, snaps to
exactly 0 at or below 0.1, never flips the sign, keeps `|speedX| ≤ maxSpeed`
after every call, and iterating 12 no-input steps reaches exactly 0 from
any start. -/
theorem applyMovement_friction_spec :
    (∀ e : Entity, 1/10 < |e.speedX| →
      (applyMovement e 0).speedX =
        max (-playerMaxSpeed) (min playerMaxSpeed (e.speedX * (1 - playerFriction)))) ∧
    (∀ e : Entity, |e.speedX| ≤ 1/10 → (applyMovement e 0).speedX = 0) ∧
    (∀ e : Entity, 0 ≤ e.speedX → 0 ≤ (applyMovement e 0).speedX) ∧
    (∀ e : Entity, e.speedX ≤ 0 → (applyMovement e 0).speedX ≤ 0) ∧
    (∀ (e : Entity) (d : ℤ), |(applyMovement e d).speedX| ≤ playerMaxSpeed) ∧
    (∀ e : Entity, ((fun x => applyMovement x 0)^[12] e).speedX = 0) := by
  refine ⟨?_, ?_, ?_, ?_, ?_, ?_⟩
  · intro e h
    rw [applyMovement_speedX]
    norm_num
    rw [if_pos h]
  · intro e h
    exact applyMovement_snap e h
  · intro e h
    rw [applyMovement_speedX, if_neg (show ¬ (0 : ℤ) ≠ 0 by norm_num)]
    split_ifs with hb
    · have hfr : (0 : ℚ) ≤ 1 - playerFriction := by norm_num [playerFriction]
      have hf : (0 : ℚ) ≤ e.speedX * (1 - playerFriction) := by nlinarith
      have hmin : (0 : ℚ) ≤ min playerMaxSpeed (e.speedX * (1 - playerFriction)) :=
        le_min (by norm_num [playerMaxSpeed]) hf
      exact le_trans hmin (le_max_right _ _)
    · norm_num [playerMaxSpeed]
  · intro e h
    rw [applyMovement_speedX, if_neg (show ¬ (0 : ℤ) ≠ 0 by norm_num)]
    split_ifs with hb
    · have hfr : (0 : ℚ) ≤ 1 - playerFriction := by norm_num [playerFriction]
      have hf : e.speedX * (1 - playerFriction) ≤ 0 := by nlinarith
      have hmin : min playerMaxSpeed (e.speedX * (1 - playerFriction)) ≤ 0 :=
        le_trans (min_le_right _ _) hf
      exact max_le (by norm_num [playerMaxSpeed]) hmin
    · norm_num [playerMaxSpeed]
  · intro e d
    rw [applyMovement_speedX]
    exact abs_clamp_le _
  · intro e
    have h1 : |((fun x => applyMovement x 0) e).speedX| ≤ playerMaxSpeed := by
      show |(applyMovement e 0).speedX| ≤ playerMaxSpeed
      rw [applyMovement_speedX]
      exact abs_clamp_le _
    have h11 := applyMovement_iter_bound 10 _ h1
    have hsmall :
        |((fun x => applyMovement x 0)^[10] ((fun x => applyMovement x 0) e)).speedX|
          ≤ 1/10 := by
      refine le_trans h11 ?_
      norm_num [playerMaxSpeed]
    rw [show (12 : ℕ) = 1 + (10 + 1) by norm_num,
        Function.iterate_add_apply _ 1 (10 + 1) e,
        Function.iterate_add_apply _ 10 1 e,
        Function.iterate_one]
    exact applyMovement_snap _ hsmall

theorem applyMovement_friction_spec_witness :
    (applyMovement ⟨0, 0, 1, 1, 5, 0, false⟩ 0).speedX =
      max (-playerMaxSpeed) (min playerMaxSpeed (5 * (1 - playerFriction))) ∧
    (applyMovement ⟨0, 0, 1, 1, 1/20, 0, false⟩ 0).speedX = 0 := by
  refine ⟨?_, applyMovement_friction_spec.2.1 ⟨0, 0, 1, 1, 1/20, 0, false⟩ ?_⟩
  case refine_2 =>
    show |(1/20 : ℚ)| ≤ 1/10
    rw [abs_le]
    constructor <;> norm_num
  have := applyMovement_friction_spec.1 ⟨0, 0, 1, 1, 5, 0, false⟩ (by norm_num)
  simpa using this

end PopeGame
